import Mathlib

/-!
Verification development for the runtime core of the "geomatric-dash" runner
game.  The definitions below are a shallow embedding of the TypeScript
sources:

* `src/my-runner/src/entities/EntityFactory.ts` (entity pools, pattern
  selection, collision processing),
* the `Obstacle` entity class,
* the `Item` entity class (in `src/my-runner/src/core/Scenes.ts`),
* the `ProgressManager` scoring/combo/achievement tracker,
* `PlayScene.updateGameplay` (the per-tick phase order),
* `src/src/core/StateMachine.ts` (stack-based scene state machine).

JavaScript numbers are modelled as `ℚ` (all arithmetic the claims touch is
exact decimal arithmetic), `Math.floor` as `Int.floor` on `ℚ`, and object
references into the entity pools as indices ("slots") into an append-only
store list, which reproduces the aliasing between the pool arrays and the
active-entity arrays of the source.  Rendering, tweens, logging and other
display-side effects are not part of the embedded state.
-/

namespace GeomDash

/-- Axis-aligned bounding box, as `Bounds` in `src/my-runner/src/core/types.ts`. -/
structure Bounds where
  x : ℚ
  y : ℚ
  width : ℚ
  height : ℚ
deriving Repr, DecidableEq

/-- The AABB overlap test used by `Obstacle.checkCollision` and
`Item.checkCollision`: `a` is the entity's bounds, `b` the player's bounds:
`bounds.x < pb.x + pb.width && bounds.x + bounds.width > pb.x && ...`. -/
def aabbOverlap (a b : Bounds) : Bool :=
  decide (a.x < b.x + b.width) && decide (a.x + a.width > b.x) &&
  decide (a.y < b.y + b.height) && decide (a.y + a.height > b.y)

/-- Obstacle entity state (`Obstacle` class).  `width`/`height` stand for
`config.size`, which the constructor looks up per type and defaults to
32×32 when the global config has no entry. -/
structure Obstacle where
  x : ℚ
  y : ℚ
  velocityX : ℚ := 0
  velocityY : ℚ := 0
  width : ℚ := 32
  height : ℚ := 32
  obstacleType : String
  isActive : Bool := true
  isDeadly : Bool := true
deriving Repr, DecidableEq

/-- `new Obstacle(scene, x, y, type)`.  The constructor's `setupVisuals`
switch sets `isDeadly = false` only in the `moving_platform` case
(`createMovingPlatformVisual`); every other branch leaves the field at its
initializer `true`. -/
def Obstacle.new (x y : ℚ) (type : String) : Obstacle :=
  { x := x, y := y, obstacleType := type,
    isDeadly := !(type == "moving_platform") }

instance : Inhabited Obstacle := ⟨Obstacle.new 0 0 "spike"⟩

/-- `Obstacle.getCollisionBounds`: centered box of the configured size. -/
def Obstacle.getCollisionBounds (o : Obstacle) : Bounds :=
  { x := o.x - o.width / 2, y := o.y - o.height / 2,
    width := o.width, height := o.height }

/-- `Obstacle.checkCollision(playerBounds)`: inactive obstacles never
collide, otherwise the AABB overlap test. -/
def Obstacle.checkCollision (o : Obstacle) (playerBounds : Bounds) : Bool :=
  if !o.isActive then false
  else aabbOverlap o.getCollisionBounds playerBounds

/-- `Obstacle.onPlayerCollision(player)`: returns whether the collision was
deadly; inactive obstacles report `false`. -/
def Obstacle.onPlayerCollision (o : Obstacle) : Bool :=
  if !o.isActive then false else o.isDeadly

/-- The tagged effect returned by `Item.getItemEffect`. -/
inductive ItemEffect where
  | score (value : ℚ)
  | ability (name : String) (durationMs : ℚ)
  | key (value : ℚ)
deriving Repr, DecidableEq

/-- Item entity state (`Item` class in `Scenes.ts`).  `width`/`height`
stand for `config.size` (default 24×24). -/
structure Item where
  x : ℚ
  y : ℚ
  velocityX : ℚ := 0
  velocityY : ℚ := 0
  width : ℚ := 24
  height : ℚ := 24
  itemType : String
  value : ℚ := 1
  isActive : Bool := true
  isCollected : Bool := false
deriving Repr, DecidableEq

/-- Value adjustment performed by `Item.setupVisuals`: `createGemVisual`
sets `value = 5` and `createStarVisual` sets `value = 10`; all other
visual branches leave `value` untouched. -/
def visualValue (type : String) (v : ℚ) : ℚ :=
  if type == "gem" then 5 else if type == "star" then 10 else v

/-- `new Item(scene, x, y, type)`: `value` starts at the config default 1
and `setupVisuals` may override it. -/
def Item.new (x y : ℚ) (type : String) : Item :=
  { x := x, y := y, itemType := type, value := visualValue type 1 }

instance : Inhabited Item := ⟨Item.new 0 0 "coin"⟩

/-- `Item.reset(x, y, type)` (pooled reuse): reposition, clear
`isCollected`, reactivate; if a different type is requested, retag and
rebuild visuals (which may override `value`). -/
def Item.reset (it : Item) (x y : ℚ) (type : Option String) : Item :=
  let it := { it with x := x, y := y, isCollected := false, isActive := true }
  match type with
  | some t => if t == it.itemType then it
              else { it with itemType := t, value := visualValue t it.value }
  | none => it

/-- `Item.getCollisionBounds`. -/
def Item.getCollisionBounds (it : Item) : Bounds :=
  { x := it.x - it.width / 2, y := it.y - it.height / 2,
    width := it.width, height := it.height }

/-- `Item.checkCollision(playerBounds)`: inactive or already-collected
items never collide. -/
def Item.checkCollision (it : Item) (playerBounds : Bounds) : Bool :=
  if !it.isActive || it.isCollected then false
  else aabbOverlap it.getCollisionBounds playerBounds

/-- `Item.getItemEffect`: fixed kind→effect table. -/
def Item.getItemEffect (it : Item) : ItemEffect :=
  if it.itemType == "coin" || it.itemType == "gem" || it.itemType == "star" then
    .score it.value
  else if it.itemType == "powerup_jump" then .ability "doubleJump" 10000
  else if it.itemType == "powerup_dash" then .ability "dash" 8000
  else if it.itemType == "powerup_slide" then .ability "slide" 12000
  else if it.itemType == "powerup_giant" then .ability "giant" 5000
  else if it.itemType == "key" then .key 1
  else .score it.value

/-- `Item.onPlayerCollision(player)`: inactive or collected items return
`null` and stay unchanged; otherwise the item is marked collected and its
effect returned.  (The `setActive(false)` of the source happens later, in
the 300 ms collection tween callback, not inside this call.) -/
def Item.onPlayerCollision (it : Item) : Option ItemEffect × Item :=
  if !it.isActive || it.isCollected then (none, it)
  else (some it.getItemEffect, { it with isCollected := true })

/-- `CollisionOutcome` of `EntityFactory.processCollisions`. -/
structure CollisionOutcome where
  playerHit : Bool
  itemsCollected : List ItemEffect
deriving Repr, DecidableEq

/-- `EntityFactory.checkCollisions` obstacle half: the overlapping active
obstacles, in active-list order. -/
def collidingObstacles (pb : Bounds) (obstacles : List Obstacle) : List Obstacle :=
  obstacles.filter (fun o => o.checkCollision pb)

/-- The obstacle loop of `EntityFactory.processCollisions`: walk the
colliding obstacles in order and stop at the first one whose
`onPlayerCollision` reports a deadly hit (`break`). -/
def firstDeadlyHit : List Obstacle → Bool
  | [] => false
  | o :: rest => if o.onPlayerCollision then true else firstDeadlyHit rest

/-- `playerHit` as computed by `EntityFactory.processCollisions`. -/
def processObstacleCollisions (pb : Bounds) (obstacles : List Obstacle) : Bool :=
  firstDeadlyHit (collidingObstacles pb obstacles)

/-- The item half of `EntityFactory.processCollisions`: `checkCollisions`
filters the active items by `checkCollision`, then each colliding item's
`onPlayerCollision` is invoked, mutating the item (collected flag) in
place.  Because the active-item list holds distinct objects, this is the
same as processing each item in list order; the returned list is the item
list with the collected flags updated. -/
def processItemCollisions (pb : Bounds) : List Item → List ItemEffect × List Item
  | [] => ([], [])
  | it :: rest =>
    let r := if it.checkCollision pb then it.onPlayerCollision else (none, it)
    let step := processItemCollisions pb rest
    ((match r.1 with | some e => [e] | none => []) ++ step.1, r.2 :: step.2)

/-- `EntityFactory.processCollisions()`, over the resolved active entity
lists; also returns the updated item states. -/
def processCollisions (pb : Bounds) (obstacles : List Obstacle) (items : List Item) :
    CollisionOutcome × List Item :=
  let hit := processObstacleCollisions pb obstacles
  let itemStep := processItemCollisions pb items
  ({ playerHit := hit, itemsCollected := itemStep.1 }, itemStep.2)

/-! ### Entity pools (`EntityFactory`)

The TypeScript pools are arrays of shared object references: `obstaclePool`
holds the pre-created instances, while `activeObstacles` holds references
to currently live objects (pooled or freshly allocated).  We embed every
instance ever created into an append-only `store` list and let the pool
and active lists hold slot indices into it, which preserves the aliasing. -/

/-- The optional per-descriptor `data` passed to `spawnObstacle` /
`spawnItem` (`element` of the pattern).  `movement` patterns only install
render-loop tweens and are not part of the embedded state. -/
structure SpawnData where
  velocity : Option (ℚ × ℚ) := none
  value : Option ℚ := none
deriving Repr, DecidableEq

/-- `EntityFactory` pool state. -/
structure EntityFactory where
  obstacleStore : List Obstacle := []
  itemStore : List Item := []
  obstaclePool : List Nat := []
  itemPool : List Nat := []
  activeObstacles : List Nat := []
  activeItems : List Nat := []
deriving Repr, DecidableEq

/-- Application of `data.velocity` to an obstacle (`if (data.velocity)
obstacle.setVelocity(...)`). -/
def applyObstacleData (o : Obstacle) (data : SpawnData) : Obstacle :=
  match data.velocity with
  | some v => { o with velocityX := v.1, velocityY := v.2 }
  | none => o

/-- Application of `data.velocity` and `data.value` to an item.  The
source guards with JavaScript truthiness (`if (data.value)`), so a zero
value is not applied. -/
def applyItemData (it : Item) (data : SpawnData) : Item :=
  let it := match data.velocity with
    | some v => { it with velocityX := v.1, velocityY := v.2 }
    | none => it
  match data.value with
  | some v => if v = 0 then it else { it with value := v }
  | none => it

/-- `EntityFactory.spawnObstacle(type, x, y, data)`: reuse the first
inactive pooled obstacle (reposition, retag, reactivate) or, when every
pooled obstacle is active, allocate a fresh instance; the result is pushed
onto `activeObstacles`.  Returns the slot of the spawned obstacle.  Note
the freshly allocated instance is appended to the store (a new object)
but never to `obstaclePool`. -/
def EntityFactory.spawnObstacle (f : EntityFactory) (type : String) (x y : ℚ)
    (data : SpawnData) : EntityFactory × Nat :=
  match f.obstaclePool.find? (fun i => !(f.obstacleStore.getD i default).isActive) with
  | some i =>
    let old := f.obstacleStore.getD i default
    let reused := applyObstacleData
      { old with x := x, y := y, obstacleType := type, isActive := true } data
    ({ f with obstacleStore := f.obstacleStore.set i reused,
              activeObstacles := f.activeObstacles ++ [i] }, i)
  | none =>
    let fresh := applyObstacleData (Obstacle.new x y type) data
    ({ f with obstacleStore := f.obstacleStore ++ [fresh],
              activeObstacles := f.activeObstacles ++ [f.obstacleStore.length] },
     f.obstacleStore.length)

/-- `EntityFactory.spawnItem(type, x, y, data)`: reuse the first inactive
pooled item via `Item.reset` or allocate a fresh one; the result is pushed
onto `activeItems`.  As with obstacles, a fresh instance never enters
`itemPool`. -/
def EntityFactory.spawnItem (f : EntityFactory) (type : String) (x y : ℚ)
    (data : SpawnData) : EntityFactory × Nat :=
  match f.itemPool.find? (fun i => !(f.itemStore.getD i default).isActive) with
  | some i =>
    let old := f.itemStore.getD i default
    let reused := applyItemData (old.reset x y (some type)) data
    ({ f with itemStore := f.itemStore.set i reused,
              activeItems := f.activeItems ++ [i] }, i)
  | none =>
    let fresh := applyItemData (Item.new x y type) data
    ({ f with itemStore := f.itemStore ++ [fresh],
              activeItems := f.activeItems ++ [f.itemStore.length] },
     f.itemStore.length)

/-! ### Pattern spawner (`EntityFactory` pattern selection) -/

/-- A catalog entry as built in the `EntityFactory` constructor:
`{ name, data, difficulty: getDifficultyFromName(name) }` plus the
optional `type` tag consulted by `calculatePatternWeight`.  The placement
descriptors themselves (`data`) play no role in selection. -/
structure Pattern where
  name : String
  difficulty : Nat
  ptype : String := ""
deriving Repr, DecidableEq

/-- `getDifficultyFromName`: tier from the name prefix, defaulting to 1. -/
def getDifficultyFromName (name : String) : Nat :=
  if name.startsWith "easy_" then 1
  else if name.startsWith "mid_" then 2
  else if name.startsWith "hard_" then 3
  else 1

/-- The `pattern.difficulty || 1` read used in filtering and weighting. -/
def effectiveDifficulty (p : Pattern) : Nat :=
  if p.difficulty = 0 then 1 else p.difficulty

/-- `EntityFactory.getPatternsByDifficulty(difficulty)`: the catalog
filtered to tiers at most `difficulty` (an empty catalog yields `[]` in
both the source's early return and the filter). -/
def getPatternsByDifficulty (patterns : List Pattern) (difficulty : Nat) : List Pattern :=
  patterns.filter (fun p => effectiveDifficulty p ≤ difficulty)

/-- `EntityFactory.calculatePatternWeight(pattern, difficulty, distance)`. -/
def calculatePatternWeight (p : Pattern) (difficulty : Nat) (distance : ℚ) : ℚ :=
  let difficultyMatch : ℚ := |((effectiveDifficulty p : ℚ)) - (difficulty : ℚ)|
  let weight := max (1/10 : ℚ) (1 - difficultyMatch * (3/10))
  if distance > 1000 ∧ p.ptype == "challenge" then weight * (3/2) else weight

/-- `EntityFactory.createDefaultPattern()`: the built-in fail-safe
pattern (two obstacles, two items, difficulty 1).  Only its identity and
tier matter for selection. -/
def defaultPattern : Pattern := { name := "default", difficulty := 1 }

/-- The weighted-selection loop of `selectNextPattern`: subtract each
candidate's weight from the draw in catalog order and return the first
candidate at which the remainder drops to zero or below. -/
def pickWeighted (r : ℚ) : List (Pattern × ℚ) → Option Pattern
  | [] => none
  | pw :: rest => if r - pw.2 ≤ 0 then some pw.1 else pickWeighted (r - pw.2) rest

/-- `EntityFactory.selectNextPattern(difficulty, distance)`.  The
`Math.random()` draw is passed in as `r` (the source computes
`random = Math.random() * totalWeight`); the theorems below hold for every
`r`.  When no pattern passes the difficulty filter the built-in default
pattern is returned; when the loop never fires, the first available
pattern is the fallback. -/
def selectNextPattern (patterns : List Pattern) (difficulty : Nat) (distance : ℚ)
    (r : ℚ) : Pattern :=
  match getPatternsByDifficulty patterns difficulty with
  | [] => defaultPattern
  | p0 :: rest =>
    let available := p0 :: rest
    let weighted := available.map (fun p => (p, calculatePatternWeight p difficulty distance))
    let totalWeight := (weighted.map Prod.snd).sum
    match pickWeighted (r * totalWeight) weighted with
    | some p => p
    | none => p0

/-! ### Progression tracker (`ProgressManager`) -/

/-- The `stats` record of `ProgressManager`. -/
structure ProgressStats where
  totalJumps : Nat := 0
  totalDashes : Nat := 0
  totalSlides : Nat := 0
  totalDeaths : Nat := 0
  totalItemsCollected : Nat := 0
  bestTime : ℚ := 0
  longestCombo : Nat := 0
  fastestSpeed : ℚ := 0
deriving Repr, DecidableEq

/-- `ProgressManager` session state (fields of the class; the Phaser scene
reference and the notification popups are display-side and omitted).
`comboTimeout` is the fixed 3000 ms constant. -/
structure ProgressManager where
  score : ℤ := 0
  highScore : ℤ := 0
  coins : Nat := 0
  gems : Nat := 0
  stars : Nat := 0
  distance : ℚ := 0
  time : ℚ := 0
  level : ℤ := 1
  difficulty : ℤ := 1
  combo : Nat := 0
  maxCombo : Nat := 0
  comboMultiplier : ℚ := 1
  lastCollectionTime : ℚ := 0
  comboTimeout : ℚ := 3000
  achievements : List String := []
  reachedMilestones : List Nat := []
  stats : ProgressStats := {}
deriving Repr, DecidableEq

/-- `ProgressManager.resetCombo()`. -/
def ProgressManager.resetCombo (pm : ProgressManager) : ProgressManager :=
  { pm with combo := 0, comboMultiplier := 1 }

/-- `ProgressManager.addScore(points)`: adds
`floor(points * comboMultiplier)` and returns the added amount. -/
def ProgressManager.addScore (pm : ProgressManager) (points : ℚ) : ProgressManager × ℤ :=
  let bonusPoints := ⌊points * pm.comboMultiplier⌋
  ({ pm with score := pm.score + bonusPoints }, bonusPoints)

/-- `ProgressManager.getItemScore(itemType, value)`: fixed base-score
table times the item value. -/
def getItemScore (itemType : String) (value : ℚ) : ℚ :=
  (if itemType == "coin" then 10
   else if itemType == "gem" then 50
   else if itemType == "star" then 100
   else if itemType == "key" then 25
   else 10) * value

/-- `ProgressManager.calculateBonusScore()`: distance bonus, time
efficiency bonus (only when some distance was covered), and level bonus. -/
def ProgressManager.calculateBonusScore (pm : ProgressManager) : ℤ :=
  let distanceBonus := ⌊pm.distance * (pm.difficulty : ℚ) * (1/2)⌋
  let timeBonus : ℤ :=
    if pm.distance > 0 then ⌊(pm.distance / max pm.time 1) * 10⌋ else 0
  distanceBonus + timeBonus + (pm.level - 1) * 100

/-- `ProgressManager.unlockAchievement(id, ...)`: first unlock records the
id and grants a flat `addScore(500)` bonus; repeat unlocks are no-ops. -/
def ProgressManager.unlockAchievement (pm : ProgressManager) (id : String) : ProgressManager :=
  if pm.achievements.contains id then pm
  else (({ pm with achievements := pm.achievements ++ [id] }).addScore 500).1

/-- The fixed distance milestone thresholds. -/
def milestones : List Nat := [100, 500, 1000, 2500, 5000, 10000]

/-- `ProgressManager.checkMilestones()`: each threshold fires once per
session, unlocking `distance_<m>` and granting `addScore(m * 2)`. -/
def ProgressManager.checkMilestones (pm : ProgressManager) : ProgressManager :=
  milestones.foldl
    (fun pm (m : Nat) =>
      if decide ((m : ℚ) ≤ pm.distance) && !(pm.reachedMilestones.contains m) then
        ((({ pm with reachedMilestones := pm.reachedMilestones ++ [m]
           }).unlockAchievement ("distance_" ++ toString m)).addScore ((m : ℚ) * 2)).1
      else pm)
    pm

/-- `ProgressManager.checkAchievements()`: combo, collection-count,
zero-death-at-distance and top-speed predicates, in source order. -/
def ProgressManager.checkAchievements (pm : ProgressManager) : ProgressManager :=
  let pm := if 10 ≤ pm.combo && !(pm.achievements.contains "combo_10") then
      pm.unlockAchievement "combo_10" else pm
  let pm := if 25 ≤ pm.combo && !(pm.achievements.contains "combo_25") then
      pm.unlockAchievement "combo_25" else pm
  let pm := if 100 ≤ pm.coins && !(pm.achievements.contains "coins_100") then
      pm.unlockAchievement "coins_100" else pm
  let pm := if 50 ≤ pm.gems && !(pm.achievements.contains "gems_50") then
      pm.unlockAchievement "gems_50" else pm
  let pm := if 10 ≤ pm.stars && !(pm.achievements.contains "stars_10") then
      pm.unlockAchievement "stars_10" else pm
  let pm := if pm.stats.totalDeaths == 0 && decide ((500 : ℚ) ≤ pm.distance) then
      pm.unlockAchievement "no_death_500" else pm
  let pm := if decide ((800 : ℚ) ≤ pm.stats.fastestSpeed) && !(pm.achievements.contains "speed_800") then
      pm.unlockAchievement "speed_800" else pm
  pm

/-- The first half of `ProgressManager.update(time, delta)`: advance
elapsed time, expire the combo after the 3 s timeout, recompute `score`
from distance and the bonus function (overwriting the previous value),
track the high score, and rederive `difficulty`/`level` from distance. -/
def ProgressManager.updateCore (pm : ProgressManager) (time delta : ℚ) : ProgressManager :=
  let pm := { pm with time := pm.time + delta / 1000 }
  let pm := if 0 < pm.combo ∧ pm.comboTimeout < time - pm.lastCollectionTime then
      pm.resetCombo else pm
  let distanceScore := ⌊pm.distance * 10⌋
  let pm := { pm with score := distanceScore + pm.calculateBonusScore }
  let pm := if pm.highScore < pm.score then { pm with highScore := pm.score } else pm
  { pm with difficulty := ⌊pm.distance / 100⌋ + 1,
            level := ⌊pm.distance / 200⌋ + 1 }

/-- `ProgressManager.update(time, delta)`: the core bookkeeping above
followed by the milestone and achievement checks. -/
def ProgressManager.update (pm : ProgressManager) (time delta : ℚ) : ProgressManager :=
  ((pm.updateCore time delta).checkMilestones).checkAchievements

/-- `ProgressManager.collectItem(itemType, value)`: stamp the collection
time (`now` is `scene.time.now`), bump the combo and the item counter,
recompute the multiplier as `min(1 + (combo - 1) * 0.1, 5)`, count the
item kind, award `addScore(getItemScore(...))`, and update the combo
records.  Returns the new state, the awarded score and the combo. -/
def ProgressManager.collectItem (pm : ProgressManager) (itemType : String) (value : ℚ)
    (now : ℚ) : ProgressManager × ℤ × Nat :=
  let pm := { pm with lastCollectionTime := now, combo := pm.combo + 1,
                      stats := { pm.stats with
                        totalItemsCollected := pm.stats.totalItemsCollected + 1 } }
  let pm := { pm with comboMultiplier := min (1 + ((pm.combo : ℚ) - 1) * (1/10)) 5 }
  let pm := if itemType == "coin" then { pm with coins := pm.coins + 1 }
            else if itemType == "gem" then { pm with gems := pm.gems + 1 }
            else if itemType == "star" then { pm with stars := pm.stars + 1 }
            else pm
  let baseScore := getItemScore itemType value
  let step := pm.addScore baseScore
  let pm := step.1
  let pm := if pm.maxCombo < pm.combo then { pm with maxCombo := pm.combo } else pm
  let pm := if pm.stats.longestCombo < pm.combo then
      { pm with stats := { pm.stats with longestCombo := pm.combo } } else pm
  (pm, step.2, pm.combo)

/-- `ProgressManager.recordAction(action)`: statistics counters; a
`"death"` additionally breaks the combo unconditionally. -/
def ProgressManager.recordAction (pm : ProgressManager) (action : String) : ProgressManager :=
  if action == "jump" then
    { pm with stats := { pm.stats with totalJumps := pm.stats.totalJumps + 1 } }
  else if action == "dash" then
    { pm with stats := { pm.stats with totalDashes := pm.stats.totalDashes + 1 } }
  else if action == "slide" then
    { pm with stats := { pm.stats with totalSlides := pm.stats.totalSlides + 1 } }
  else if action == "death" then
    ({ pm with stats := { pm.stats with totalDeaths := pm.stats.totalDeaths + 1 } }).resetCombo
  else pm

/-! ### Per-tick phase order (`PlayScene.updateGameplay`) -/

/-- The statements of `PlayScene.updateGameplay`, one tag per top-level
step, in source order. -/
inductive TickPhase where
  | cameraUpdate
  | effectsUpdate
  | entityKinematics
  | playerUpdate
  | distanceUpdate
  | speedUpdate
  | difficultyUpdate
  | cameraLookAhead
  | speedLinesFx
  | patternSpawn
  | collisionResolve
  | deathHandling
  | progressionUpdate
  | scoreUpdate
  | uiUpdate
deriving Repr, DecidableEq

/-- The phase trace of one `PlayScene.updateGameplay(time, delta)` call,
transcribed from the source statement order: camera and effects updates,
`entityFactory.update` (kinematics of live entities plus off-screen
cleanup), `player.update`, distance/speed/difficulty bookkeeping, camera
look-ahead and speed lines, `spawnPatterns()`, `processCollisions()`,
death handling, the collected-item loop feeding
`progressManager.collectItem`, the distance-based score write, and the UI
refresh. -/
def updateGameplayPhases : List TickPhase :=
  [.cameraUpdate, .effectsUpdate, .entityKinematics, .playerUpdate,
   .distanceUpdate, .speedUpdate, .difficultyUpdate, .cameraLookAhead,
   .speedLinesFx, .patternSpawn, .collisionResolve, .deathHandling,
   .progressionUpdate, .scoreUpdate, .uiUpdate]

/-! ### Scene state machine (`StateMachine.ts`) -/

/-- What the machine needs to know about a registered `State` object:
whether the optional `pause`/`resume` callbacks are present. -/
structure SMState where
  hasPause : Bool := true
  hasResume : Bool := true
deriving Repr, DecidableEq

/-- Lifecycle callbacks observed during a transition, tagged with the
state they are invoked on. -/
inductive SMEvent where
  | enter (name : String)
  | exitEv (name : String)
  | pause (name : String)
  | resume (name : String)
deriving Repr, DecidableEq

/-- `StateMachine` state: the registration map (`states`), the name stack
(`stateStack`, top at the end as with `Array.push`/`pop`), and the current
state reference with its name. -/
structure StateMachine where
  states : List (String × SMState) := []
  stateStack : List String := []
  current : Option (String × SMState) := none
deriving Repr, DecidableEq

/-- `Map.get` over the registration list. -/
def smLookup (m : List (String × SMState)) (k : String) : Option SMState :=
  (m.find? (fun p => p.1 == k)).map Prod.snd

/-- `Map.set` over the registration list (`addState`). -/
def StateMachine.addState (sm : StateMachine) (name : String) (st : SMState) : StateMachine :=
  if sm.states.any (fun p => p.1 == name) then
    { sm with states := sm.states.map (fun p => if p.1 == name then (name, st) else p) }
  else
    { sm with states := sm.states ++ [(name, st)] }

/-- `StateMachine.pushState(name, data)`: an unregistered name is a
boolean failure with no effect; otherwise pause the current state (when
supported), push its name, and enter the new state. -/
def StateMachine.pushState (sm : StateMachine) (name : String) :
    Bool × StateMachine × List SMEvent :=
  match smLookup sm.states name with
  | none => (false, sm, [])
  | some st =>
    let pauseEvs := match sm.current with
      | some c => if c.2.hasPause then [SMEvent.pause c.1] else []
      | none => []
    let stack := match sm.current with
      | some c => sm.stateStack ++ [c.1]
      | none => sm.stateStack
    (true, { sm with stateStack := stack, current := some (name, st) },
     pauseEvs ++ [SMEvent.enter name])

/-- `StateMachine.replaceState(name, data)`: an unregistered name is a
boolean failure with no effect; otherwise exit the current state and enter
the new one, leaving the stack untouched. -/
def StateMachine.replaceState (sm : StateMachine) (name : String) :
    Bool × StateMachine × List SMEvent :=
  match smLookup sm.states name with
  | none => (false, sm, [])
  | some st =>
    let exitEvs := match sm.current with
      | some c => [SMEvent.exitEv c.1]
      | none => []
    (true, { sm with current := some (name, st) }, exitEvs ++ [SMEvent.enter name])

/-- `StateMachine.popState()`: an empty stack is a boolean failure with no
effect; otherwise exit the current state, pop the previous name, and
resume it (when supported).  The unregistered-previous-name branch of the
source is unreachable from states built by these operations but is
transcribed faithfully. -/
def StateMachine.popState (sm : StateMachine) :
    Bool × StateMachine × List SMEvent :=
  match sm.stateStack.getLast? with
  | none => (false, sm, [])
  | some prevName =>
    let exitEvs := match sm.current with
      | some c => [SMEvent.exitEv c.1]
      | none => []
    let stack := sm.stateStack.dropLast
    match smLookup sm.states prevName with
    | none => (false, { sm with stateStack := stack }, exitEvs)
    | some ps =>
      (true, { sm with stateStack := stack, current := some (prevName, ps) },
       exitEvs ++ (if ps.hasResume then [SMEvent.resume prevName] else []))

/-! ### Derived scenarios used by the theorems -/

/-- `K` successive `collectItem` calls with no intervening timeout or
death (a continuous collection streak). -/
def collectRun (pm : ProgressManager) : Nat → ProgressManager
  | 0 => pm
  | k + 1 => ((collectRun pm k).collectItem "coin" 1 0).1

/-- The session-start `ProgressManager` state (field initializers, which
`resetSession()` restores). -/
def pmInit : ProgressManager := {}

/-- A factory whose obstacle pool is exhausted: the single pooled
obstacle (slot 0) is active. -/
def exhaustedFactory : EntityFactory :=
  { obstacleStore := [{ x := 0, y := 0, obstacleType := "spike" }],
    obstaclePool := [0], activeObstacles := [0] }

/-- A factory with one inactive pooled obstacle and one inactive pooled
item (both parked off-field, as after `initializePools` or a release). -/
def pooledFactory : EntityFactory :=
  { obstacleStore := [{ x := -1000, y := -1000, obstacleType := "spike", isActive := false }],
    itemStore := [{ x := -1000, y := -1000, itemType := "coin", isActive := false }],
    obstaclePool := [0], itemPool := [0] }

/-- The player AABB of the spec's collision example. -/
def samplePlayerBounds : Bounds := { x := 100, y := 100, width := 28, height := 42 }

/-- A deadly obstacle whose `getCollisionBounds` is the AABB
`{x:105, y:110, w:20, h:20}` of the spec's collision example. -/
def sampleDeadlyObstacle : Obstacle :=
  { x := 115, y := 120, width := 20, height := 20, obstacleType := "spike" }

/-- A non-deadly platform obstacle whose bounds coincide with
`sampleDeadlyObstacle`'s. -/
def samplePlatformObstacle : Obstacle :=
  { x := 115, y := 120, width := 20, height := 20,
    obstacleType := "moving_platform", isDeadly := false }

/-- An already-collected coin still overlapping `samplePlayerBounds`. -/
def sampleCollectedItem : Item :=
  { x := 110, y := 110, itemType := "coin", isCollected := true }

/-- A two-entry pattern catalog with one easy and one hard pattern. -/
def sampleCatalog : List Pattern :=
  [{ name := "easy_001", difficulty := 1 }, { name := "hard_021", difficulty := 3 }]

/-- A state machine with a single registered, current state `"playing"`
and an empty stack. -/
def sampleStateMachine : StateMachine :=
  let sm : StateMachine := {}
  let sm := sm.addState "playing" {}
  (sm.replaceState "playing").2.1

/-! ## Helper lemmas -/

/-- `updateCore` overwrites `score` with a value computed from the other
fields, so it does not depend on the incoming `score`. -/
theorem updateCore_score_irrel (pm : ProgressManager) (t d : ℚ) (s : ℤ) :
    (({ pm with score := s } : ProgressManager).updateCore t d) = pm.updateCore t d := by
  simp only [ProgressManager.updateCore]
  by_cases h : 0 < pm.combo ∧ pm.comboTimeout < t - pm.lastCollectionTime
  · simp [h, ProgressManager.resetCombo, ProgressManager.calculateBonusScore]
  · simp [h, ProgressManager.calculateBonusScore]

/-- Closed form of `recordAction "death"`: combo broken, death counted. -/
theorem recordAction_death (pm : ProgressManager) : pm.recordAction "death" =
    { pm with combo := 0, comboMultiplier := 1,
              stats := { pm.stats with totalDeaths := pm.stats.totalDeaths + 1 } } := by
  simp [ProgressManager.recordAction, ProgressManager.resetCombo]

/-- `collectItem` increments the combo, reports the incremented combo,
and recomputes the multiplier from it. -/
theorem collectItem_combo (pm : ProgressManager) (ty : String) (v now : ℚ) :
    ((pm.collectItem ty v now).1.combo = pm.combo + 1) ∧
    ((pm.collectItem ty v now).2.2 = pm.combo + 1) ∧
    ((pm.collectItem ty v now).1.comboMultiplier
        = min (1 + ((pm.combo : ℚ) + 1 - 1) * (1/10)) 5) := by
  simp only [ProgressManager.collectItem, ProgressManager.addScore, getItemScore]
  refine ⟨?_, ?_, ?_⟩ <;>
    simp [apply_ite ProgressManager.combo, apply_ite ProgressManager.comboMultiplier,
      Nat.cast_add]

/-- The combo after `k` collections in a streak. -/
theorem collectRun_combo (pm : ProgressManager) (k : Nat) :
    (collectRun pm k).combo = pm.combo + k := by
  induction k with
  | zero => rfl
  | succ j ih =>
    have h := (collectItem_combo (collectRun pm j) "coin" 1 0).1
    simp only [collectRun, h, ih]
    omega

/-- The multiplier after at least one collection in a streak. -/
theorem collectRun_multiplier (pm : ProgressManager) (k : Nat) :
    (collectRun pm (k + 1)).comboMultiplier
      = min (1 + ((pm.combo : ℚ) + k) * (1/10)) 5 := by
  have h := (collectItem_combo (collectRun pm k) "coin" 1 0).2.2
  simp only [collectRun] at h ⊢
  rw [h, collectRun_combo]
  push_cast
  ring_nf

/-- `getD` after `set` at the written slot. -/
theorem getD_set_self {α : Type} (l : List α) (i : Nat) (v d : α) (h : i < l.length) :
    (l.set i v).getD i d = v := by
  induction l generalizing i with
  | nil => simp at h
  | cons a l ih =>
    cases i with
    | zero => rfl
    | succ n => exact ih n (by simpa using h)

/-- `getD` after `set` at a different slot. -/
theorem getD_set_ne {α : Type} (l : List α) (i j : Nat) (v d : α) (h : i ≠ j) :
    (l.set i v).getD j d = l.getD j d := by
  induction l generalizing i j with
  | nil => rfl
  | cons a l ih =>
    cases i with
    | zero => cases j with
      | zero => exact absurd rfl h
      | succ m => rfl
    | succ n => cases j with
      | zero => rfl
      | succ m => exact ih n m (by omega)

/-- `find?` returns the head of the first satisfying suffix. -/
theorem find?_first {α : Type} (p : α → Bool) :
    ∀ (pre : List α) (i : α) (post : List α), (∀ j ∈ pre, p j = false) → p i = true →
      (pre ++ i :: post).find? p = some i := by
  intro pre
  induction pre with
  | nil => intro i post _ hi; simp [List.find?, hi]
  | cons a l ih =>
    intro i post hpre hi
    have ha : p a = false := hpre a (by simp)
    simp only [List.cons_append, List.find?, ha]
    exact ih i post (fun j hj => hpre j (by simp [hj])) hi

/-- `applyObstacleData` only touches the velocity fields. -/
theorem applyObstacleData_fields (o : Obstacle) (d : SpawnData) :
    (applyObstacleData o d).x = o.x ∧ (applyObstacleData o d).y = o.y ∧
    (applyObstacleData o d).isActive = o.isActive ∧
    (applyObstacleData o d).isDeadly = o.isDeadly := by
  cases h : d.velocity <;> simp [applyObstacleData, h]

/-- An out-of-range pool slot reads as the default (active) obstacle, so
an inactive slot is always in range. -/
theorem inactive_slot_lt_length (store : List Obstacle) (i : Nat)
    (h : (store.getD i default).isActive = false) : i < store.length := by
  by_contra hlt
  rw [List.getD_eq_default store default (by omega)] at h
  simp [default, Obstacle.new] at h

/-- Item version of `inactive_slot_lt_length`. -/
theorem inactive_item_slot_lt_length (store : List Item) (i : Nat)
    (h : (store.getD i default).isActive = false) : i < store.length := by
  by_contra hlt
  rw [List.getD_eq_default store default (by omega)] at h
  simp [default, Item.new] at h

/-- A pattern produced by the weighted-selection loop is one of the
candidates. -/
theorem pickWeighted_mem :
    ∀ (l : List (Pattern × ℚ)) (r : ℚ) (p : Pattern),
      pickWeighted r l = some p → p ∈ l.map Prod.fst := by
  intro l
  induction l with
  | nil => intro r p h; simp [pickWeighted] at h
  | cons pw rest ih =>
    intro r p h
    simp only [pickWeighted] at h
    split at h
    · simp at h
      simp [h]
    · exact List.mem_cons_of_mem _ (ih _ p h)

/-- A colliding obstacle is active. -/
theorem obstacle_checkCollision_active (o : Obstacle) (pb : Bounds)
    (h : o.checkCollision pb = true) : o.isActive = true := by
  by_contra hact
  simp only [Obstacle.checkCollision, Bool.not_eq_true] at h hact
  rw [hact] at h
  simp at h

/-- The break-at-first-deadly loop computes exactly "some overlapping
obstacle is deadly". -/
theorem firstDeadlyHit_eq_any (pb : Bounds) :
    ∀ (obstacles : List Obstacle),
      firstDeadlyHit (collidingObstacles pb obstacles)
        = obstacles.any (fun o => o.checkCollision pb && o.isDeadly) := by
  intro obstacles
  induction obstacles with
  | nil => rfl
  | cons o rest ih =>
    simp only [collidingObstacles, List.filter_cons, List.any_cons]
    by_cases hc : o.checkCollision pb = true
    · rw [if_pos hc]
      simp only [firstDeadlyHit]
      have hact := obstacle_checkCollision_active o pb hc
      have hon : o.onPlayerCollision = o.isDeadly := by
        simp [Obstacle.onPlayerCollision, hact]
      rw [hon, hc]
      cases hd : o.isDeadly with
      | true => simp
      | false =>
        simp only [Bool.true_and, Bool.false_or]
        exact ih
    · rw [if_neg hc]
      have hc' : o.checkCollision pb = false := by
        cases hcc : o.checkCollision pb
        · rfl
        · exact absurd hcc hc
      rw [hc']
      simp only [Bool.false_and, Bool.false_or]
      exact ih

/-- A colliding item is active and not yet collected. -/
theorem item_checkCollision_sound (it : Item) (pb : Bounds)
    (h : it.checkCollision pb = true) :
    it.isActive = true ∧ it.isCollected = false := by
  simp only [Item.checkCollision] at h
  split at h
  · simp at h
  · rename_i hcond
    simp only [Bool.or_eq_true, Bool.not_eq_true', not_or, Bool.not_eq_false,
      Bool.not_eq_true] at hcond
    exact ⟨hcond.1, hcond.2⟩

/-! ## Claim theorems -/

/-- C1 (counterexample): the claimed tick order — pattern spawning before
the kinematics update, before collision resolution, before the
progression update — does not hold of `PlayScene.updateGameplay`:
`entityFactory.update` (kinematics) runs before `spawnPatterns()`. -/
theorem c1_claim_counterexample :
    ¬ (updateGameplayPhases.indexOf .patternSpawn
          < updateGameplayPhases.indexOf .entityKinematics ∧
       updateGameplayPhases.indexOf .entityKinematics
          < updateGameplayPhases.indexOf .collisionResolve ∧
       updateGameplayPhases.indexOf .collisionResolve
          < updateGameplayPhases.indexOf .progressionUpdate) := by
  decide

/-- C1 (amended): within one `updateGameplay` tick the kinematics update
of live entities precedes pattern spawning, which precedes collision
resolution, which precedes the progression update; consequently an entity
spawned in a tick is collision-tested in that same tick before its first
kinematics update (which only happens in the next tick). -/
theorem c1_tick_phase_order :
    updateGameplayPhases.indexOf .entityKinematics
        < updateGameplayPhases.indexOf .patternSpawn ∧
    updateGameplayPhases.indexOf .patternSpawn
        < updateGameplayPhases.indexOf .collisionResolve ∧
    updateGameplayPhases.indexOf .collisionResolve
        < updateGameplayPhases.indexOf .progressionUpdate := by
  decide

/-- C3: for every difficulty, distance and random draw, every pattern
returned by `selectNextPattern` has tier at most the difficulty; and when
no catalog pattern has tier at most the difficulty, the built-in default
pattern is returned (selection is a total function, so it never throws). -/
theorem c3_select_pattern_tier :
    ∀ (patterns : List Pattern) (d : Nat) (dist r : ℚ),
      ((∃ p ∈ patterns, effectiveDifficulty p ≤ d) →
        effectiveDifficulty (selectNextPattern patterns d dist r) ≤ d) ∧
      ((∀ p ∈ patterns, d < effectiveDifficulty p) →
        selectNextPattern patterns d dist r = defaultPattern) := by
  intro patterns d dist r
  constructor
  · rintro ⟨p, hp, hple⟩
    have hmem : p ∈ getPatternsByDifficulty patterns d := by
      simp [getPatternsByDifficulty, List.mem_filter, hp, hple]
    cases hav : getPatternsByDifficulty patterns d with
    | nil => rw [hav] at hmem; simp at hmem
    | cons p0 rest =>
      have hall : ∀ q ∈ getPatternsByDifficulty patterns d, effectiveDifficulty q ≤ d := by
        intro q hq
        have := List.mem_filter.mp hq
        simpa using this.2
      simp only [selectNextPattern]
      rw [hav]
      dsimp only
      cases hpick : pickWeighted
          (r * (((p0 :: rest).map
            (fun p => (p, calculatePatternWeight p d dist))).map Prod.snd).sum)
          ((p0 :: rest).map (fun p => (p, calculatePatternWeight p d dist))) with
      | some q =>
        have hq := pickWeighted_mem _ _ _ hpick
        simp only [List.map_map] at hq
        have hqmem : q ∈ p0 :: rest := by simpa using hq
        exact hall q (hav ▸ hqmem)
      | none =>
        exact hall p0 (hav ▸ List.mem_cons_self p0 rest)
  · intro hnone
    have hfilter : getPatternsByDifficulty patterns d = [] := by
      simp only [getPatternsByDifficulty]
      rw [List.filter_eq_nil_iff]
      intro p hp
      simpa using Nat.not_le.mpr (hnone p hp)
    simp only [selectNextPattern]
    rw [hfilter]

/-- C3 (witness): on the two-pattern sample catalog, selection at
difficulty 2 returns a tier within bound, and at difficulty 0 (no
eligible pattern) returns the default pattern. -/
theorem c3_select_pattern_tier_witness :
    effectiveDifficulty (selectNextPattern sampleCatalog 2 0 (1/3)) ≤ 2 ∧
    selectNextPattern sampleCatalog 0 0 (1/3) = defaultPattern :=
  ⟨(c3_select_pattern_tier sampleCatalog 2 0 (1/3)).1
      ⟨{ name := "easy_001", difficulty := 1 }, by simp [sampleCatalog], by decide⟩,
   (c3_select_pattern_tier sampleCatalog 0 0 (1/3)).2 (by decide)⟩

/-- C4: `processCollisions` reports `playerHit` exactly when some
overlapping active obstacle is deadly — the ordered loop stops at the
first such obstacle, every overlapping obstacle non-deadly yields
`playerHit = false` — and the spec's concrete player AABB
`{x:100,y:100,w:28,h:42}` against the deadly obstacle AABB
`{x:105,y:110,w:20,h:20}` yields `playerHit = true`. -/
theorem c4_first_deadly_collision :
    (∀ (pb : Bounds) (obstacles : List Obstacle) (items : List Item),
      (processCollisions pb obstacles items).1.playerHit
        = obstacles.any (fun o => o.checkCollision pb && o.isDeadly)) ∧
    (∀ (pb : Bounds) (obstacles : List Obstacle) (items : List Item),
      (∀ o ∈ obstacles, o.checkCollision pb = true → o.isDeadly = false) →
      (processCollisions pb obstacles items).1.playerHit = false) ∧
    (processCollisions samplePlayerBounds [sampleDeadlyObstacle] []).1.playerHit = true := by
  have hmain : ∀ (pb : Bounds) (obstacles : List Obstacle) (items : List Item),
      (processCollisions pb obstacles items).1.playerHit
        = obstacles.any (fun o => o.checkCollision pb && o.isDeadly) := by
    intro pb obstacles items
    simp only [processCollisions, processObstacleCollisions]
    exact firstDeadlyHit_eq_any pb obstacles
  refine ⟨hmain, ?_, ?_⟩
  · intro pb obstacles items hnd
    rw [hmain]
    simp only [List.any_eq_false]
    intro o ho
    by_cases hc : o.checkCollision pb = true
    · simp [hc, hnd o ho hc]
    · simp [Bool.not_eq_true] at hc
      simp [hc]
  · rw [hmain]
    norm_num [Obstacle.checkCollision, Obstacle.getCollisionBounds, aabbOverlap,
      sampleDeadlyObstacle, samplePlayerBounds]

/-- C4 (witness): overlapping only the non-deadly platform (same bounds
as the deadly example) yields `playerHit = false`. -/
theorem c4_first_deadly_collision_witness :
    (processCollisions samplePlayerBounds [samplePlatformObstacle] []).1.playerHit = false :=
  c4_first_deadly_collision.2.1 samplePlayerBounds [samplePlatformObstacle] []
    (by intro o ho _; simp [samplePlatformObstacle] at ho; rw [ho])

/-- C5: item collection is idempotent — an item with `collected = true`
fails its collision check and its collection handler returns no effect
and leaves it unchanged, so collision resolution passes it through
untouched even when it still overlaps the player; and an item comes out
of collision resolution collected only if it already was, or was active,
uncollected and overlapping. -/
theorem c5_item_collection_idempotent :
    ∀ (pb : Bounds),
      (∀ it : Item, it.isCollected = true →
        it.checkCollision pb = false ∧ it.onPlayerCollision = (none, it)) ∧
      (∀ (items : List Item) (i : Nat), (items.getD i default).isCollected = true →
        (processItemCollisions pb items).2.getD i default = items.getD i default) ∧
      (∀ (items : List Item) (i : Nat),
        ((processItemCollisions pb items).2.getD i default).isCollected = true →
        (items.getD i default).isCollected = true ∨
        ((items.getD i default).isActive = true ∧
         (items.getD i default).isCollected = false ∧
         (items.getD i default).checkCollision pb = true)) := by
  intro pb
  have hcheck : ∀ it : Item, it.isCollected = true → it.checkCollision pb = false := by
    intro it h
    simp [Item.checkCollision, h]
  have hon : ∀ it : Item, it.isCollected = true → it.onPlayerCollision = (none, it) := by
    intro it h
    simp [Item.onPlayerCollision, h]
  refine ⟨fun it h => ⟨hcheck it h, hon it h⟩, ?_, ?_⟩
  · intro items
    induction items with
    | nil => intro i _; rfl
    | cons it rest ih =>
      intro i h
      cases i with
      | zero =>
        simp only [List.getD_cons_zero] at h ⊢
        simp only [processItemCollisions]
        rw [hcheck it h]
        simp
      | succ n =>
        simp only [List.getD_cons_succ] at h ⊢
        simp only [processItemCollisions]
        rw [List.getD_cons_succ]
        exact ih n h
  · intro items
    induction items with
    | nil =>
      intro i h
      have hnil : (processItemCollisions pb []).2 = [] := rfl
      rw [hnil, List.getD_nil] at h
      simp [default, Item.new] at h
    | cons it rest ih =>
      intro i
      cases i with
      | zero =>
        simp only [List.getD_cons_zero]
        simp only [processItemCollisions]
        rw [List.getD_cons_zero]
        by_cases hc : it.checkCollision pb = true
        · intro _
          obtain ⟨hact, hcol⟩ := item_checkCollision_sound it pb hc
          exact Or.inr ⟨hact, hcol, hc⟩
        · rw [if_neg hc]
          intro h
          exact Or.inl h
      | succ n =>
        simp only [List.getD_cons_succ]
        simp only [processItemCollisions]
        rw [List.getD_cons_succ]
        exact ih n

/-- C5 (witness): the sample collected coin still spatially overlaps the
player, yet its collision check is false and collision resolution leaves
it unchanged. -/
theorem c5_item_collection_idempotent_witness :
    aabbOverlap sampleCollectedItem.getCollisionBounds samplePlayerBounds = true ∧
    sampleCollectedItem.checkCollision samplePlayerBounds = false ∧
    (processItemCollisions samplePlayerBounds [sampleCollectedItem]).2.getD 0 default
      = sampleCollectedItem := by
  refine ⟨?_, ((c5_item_collection_idempotent samplePlayerBounds).1
      sampleCollectedItem rfl).1,
    (c5_item_collection_idempotent samplePlayerBounds).2.1 [sampleCollectedItem] 0 rfl⟩
  norm_num [aabbOverlap, Item.getCollisionBounds, sampleCollectedItem, samplePlayerBounds]

/-- C9: an invalid transition request — pushing or replacing with an
unregistered state name, or popping with an empty stack — returns `false`,
leaves the machine unchanged, and invokes no lifecycle callback. -/
theorem c9_invalid_transition_no_op :
    ∀ (sm : StateMachine) (name : String),
      (smLookup sm.states name = none →
        sm.pushState name = (false, sm, []) ∧ sm.replaceState name = (false, sm, [])) ∧
      (sm.stateStack = [] → sm.popState = (false, sm, [])) := by
  intro sm name
  constructor
  · intro h
    constructor
    · simp [StateMachine.pushState, h]
    · simp [StateMachine.replaceState, h]
  · intro h
    simp [StateMachine.popState, h]

/-- C9 (witness): on the sample machine (one registered state, empty
stack) pushing or replacing with the unregistered name `"missing"` and
popping all fail as no-ops. -/
theorem c9_invalid_transition_no_op_witness :
    sampleStateMachine.pushState "missing" = (false, sampleStateMachine, []) ∧
    sampleStateMachine.replaceState "missing" = (false, sampleStateMachine, []) ∧
    sampleStateMachine.popState = (false, sampleStateMachine, []) := by
  have h := c9_invalid_transition_no_op sampleStateMachine "missing"
  exact ⟨(h.1 (by rfl)).1, (h.1 (by rfl)).2, h.2 (by rfl)⟩

/-- C2 (counterexample): when the pool is exhausted, the fresh instance
is not appended to the pool — spawning from `exhaustedFactory` leaves
`obstaclePool` at length 1, not the length 2 the claim requires. -/
theorem c2_claim_counterexample :
    ¬ ((exhaustedFactory.spawnObstacle "spike" 0 0 {}).1.obstaclePool.length
        = exhaustedFactory.obstaclePool.length + 1) := by
  decide

/-- C2 (amended): acquiring reuses the first inactive pooled entity
(repositioned and reactivated, no new storage), so released-then-acquired
entities leave the store size unchanged; when no pooled entity is
inactive a fresh instance is allocated (store grows by one) but it is
pushed only onto the active list, never appended to the pool — the pool
arrays themselves never change size. -/
theorem c2_pool_acquire :
    ∀ (f : EntityFactory) (ty : String) (x y : ℚ) (d : SpawnData),
      ((f.spawnObstacle ty x y d).1.obstaclePool = f.obstaclePool ∧
       (f.spawnItem ty x y d).1.itemPool = f.itemPool) ∧
      ((∃ i ∈ f.obstaclePool, (f.obstacleStore.getD i default).isActive = false) →
        (f.spawnObstacle ty x y d).1.obstacleStore.length = f.obstacleStore.length) ∧
      ((∀ i ∈ f.obstaclePool, (f.obstacleStore.getD i default).isActive = true) →
        (f.spawnObstacle ty x y d).1.obstacleStore.length = f.obstacleStore.length + 1) ∧
      ((∃ i ∈ f.itemPool, (f.itemStore.getD i default).isActive = false) →
        (f.spawnItem ty x y d).1.itemStore.length = f.itemStore.length) ∧
      ((∀ i ∈ f.itemPool, (f.itemStore.getD i default).isActive = true) →
        (f.spawnItem ty x y d).1.itemStore.length = f.itemStore.length + 1) ∧
      (∀ pre i post, f.obstaclePool = pre ++ i :: post →
        (∀ j ∈ pre, (f.obstacleStore.getD j default).isActive = true) →
        (f.obstacleStore.getD i default).isActive = false →
        (f.spawnObstacle ty x y d).2 = i ∧
        ((f.spawnObstacle ty x y d).1.obstacleStore.getD i default).x = x ∧
        ((f.spawnObstacle ty x y d).1.obstacleStore.getD i default).y = y ∧
        ((f.spawnObstacle ty x y d).1.obstacleStore.getD i default).isActive = true) := by
  intro f ty x y d
  refine ⟨⟨?_, ?_⟩, ?_, ?_, ?_, ?_, ?_⟩
  · cases h : f.obstaclePool.find? (fun i => !(f.obstacleStore.getD i default).isActive) <;>
      · simp only [EntityFactory.spawnObstacle]
        rw [h]
  · cases h : f.itemPool.find? (fun i => !(f.itemStore.getD i default).isActive) <;>
      · simp only [EntityFactory.spawnItem]
        rw [h]
  · rintro ⟨i, hmem, hinact⟩
    cases h : f.obstaclePool.find? (fun i => !(f.obstacleStore.getD i default).isActive) with
    | some j =>
      simp only [EntityFactory.spawnObstacle]
      rw [h]
      simp
    | none =>
      rw [List.find?_eq_none] at h
      have hh := h i hmem
      rw [hinact] at hh
      simp at hh
  · intro hall
    cases h : f.obstaclePool.find? (fun i => !(f.obstacleStore.getD i default).isActive) with
    | some j =>
      have hj := List.find?_some h
      simp only [Bool.not_eq_eq_eq_not, Bool.not_true] at hj
      rw [hall j (List.mem_of_find?_eq_some h)] at hj
      simp at hj
    | none =>
      simp only [EntityFactory.spawnObstacle]
      rw [h]
      simp
  · rintro ⟨i, hmem, hinact⟩
    cases h : f.itemPool.find? (fun i => !(f.itemStore.getD i default).isActive) with
    | some j =>
      simp only [EntityFactory.spawnItem]
      rw [h]
      simp
    | none =>
      rw [List.find?_eq_none] at h
      have hh := h i hmem
      rw [hinact] at hh
      simp at hh
  · intro hall
    cases h : f.itemPool.find? (fun i => !(f.itemStore.getD i default).isActive) with
    | some j =>
      have hj := List.find?_some h
      simp only [Bool.not_eq_eq_eq_not, Bool.not_true] at hj
      rw [hall j (List.mem_of_find?_eq_some h)] at hj
      simp at hj
    | none =>
      simp only [EntityFactory.spawnItem]
      rw [h]
      simp
  · intro pre i post hsplit hpre hinact
    have hfind : f.obstaclePool.find?
        (fun i => !(f.obstacleStore.getD i default).isActive) = some i := by
      rw [hsplit]
      exact find?_first _ pre i post (fun j hj => by rw [hpre j hj]; rfl)
        (by rw [hinact]; rfl)
    have hlt := inactive_slot_lt_length f.obstacleStore i hinact
    simp only [EntityFactory.spawnObstacle]
    rw [hfind]
    refine ⟨rfl, ?_, ?_, ?_⟩ <;>
      · rw [getD_set_self _ _ _ _ hlt]
        cases hv : d.velocity <;> simp [applyObstacleData, hv]

/-- C2 (witness): on `pooledFactory` (one inactive slot) both spawns
reuse slot 0 without allocating, the reused obstacle is repositioned; on
`exhaustedFactory` (every pooled obstacle active) the store grows by one. -/
theorem c2_pool_acquire_witness :
    (pooledFactory.spawnObstacle "spike" 7 8 {}).1.obstacleStore.length
        = pooledFactory.obstacleStore.length ∧
    (exhaustedFactory.spawnObstacle "spike" 7 8 {}).1.obstacleStore.length
        = exhaustedFactory.obstacleStore.length + 1 ∧
    (pooledFactory.spawnObstacle "spike" 7 8 {}).2 = 0 ∧
    ((pooledFactory.spawnObstacle "spike" 7 8 {}).1.obstacleStore.getD 0 default).x = 7 ∧
    (pooledFactory.spawnItem "coin" 7 8 {}).1.itemStore.length
        = pooledFactory.itemStore.length := by
  have h := c2_pool_acquire pooledFactory "spike" 7 8 {}
  have he := c2_pool_acquire exhaustedFactory "spike" 7 8 {}
  have hfirst := h.2.2.2.2.2 [] 0 [] rfl (by simp) (by rfl)
  exact ⟨h.2.1 ⟨0, by simp [pooledFactory], by rfl⟩,
    he.2.2.1 (by intro i hi; simp [exhaustedFactory] at hi; subst hi; rfl),
    hfirst.1, hfirst.2.1,
    (c2_pool_acquire pooledFactory "coin" 7 8 {}).2.2.2.1 ⟨0, by simp [pooledFactory], by rfl⟩⟩

/-- C6 (counterexample): the session score is not monotone.  From a fresh
session, collecting one coin awards 10 points, and the next per-tick
`update` recomputes the score from distance (still 0) and drops them: the
score strictly decreases from one operation to the next. -/
theorem c6_claim_counterexample :
    ((pmInit.collectItem "coin" 1 0).1.update 1 16).score
      < (pmInit.collectItem "coin" 1 0).1.score := by
  norm_num [pmInit, ProgressManager.collectItem, ProgressManager.update,
    ProgressManager.updateCore, ProgressManager.addScore, getItemScore,
    ProgressManager.calculateBonusScore, ProgressManager.resetCombo,
    ProgressManager.checkMilestones, ProgressManager.checkAchievements,
    ProgressManager.unlockAchievement, milestones]

/-- C6 (amended): points awarded for collected items are lost at the next
per-tick recomputation — `ProgressManager.update` overwrites `score` with
a value computed from the other fields, so its result is invariant under
the score accumulated beforehand by `addScore`/`collectItem`. -/
theorem c6_update_overwrites_score :
    ∀ (pm : ProgressManager) (t d : ℚ) (s : ℤ),
      (({ pm with score := s } : ProgressManager).update t d) = pm.update t d := by
  intro pm t d s
  simp only [ProgressManager.update]
  rw [updateCore_score_irrel]

/-- C7: every `collectItem` increments the combo and recomputes the
multiplier as `min(1 + 0.1 * (combo - 1), 5)`; a streak of `K`
collections with no timeout gap and no death therefore yields a
non-decreasing multiplier sequence capped at 5. -/
theorem c7_combo_multiplier :
    (∀ (pm : ProgressManager) (ty : String) (v now : ℚ),
      (pm.collectItem ty v now).1.combo = pm.combo + 1 ∧
      (pm.collectItem ty v now).1.comboMultiplier
        = min (1 + ((((pm.collectItem ty v now).1.combo : ℚ)) - 1) * (1/10)) 5) ∧
    (∀ (pm : ProgressManager) (k : Nat), 1 ≤ k →
      (collectRun pm k).comboMultiplier ≤ (collectRun pm (k + 1)).comboMultiplier ∧
      (collectRun pm k).comboMultiplier ≤ 5) := by
  constructor
  · intro pm ty v now
    obtain ⟨h1, _, h3⟩ := collectItem_combo pm ty v now
    refine ⟨h1, ?_⟩
    rw [h3, h1]
    push_cast
    ring_nf
  · intro pm k hk
    obtain ⟨j, rfl⟩ : ∃ j, k = j + 1 := ⟨k - 1, by omega⟩
    rw [collectRun_multiplier, collectRun_multiplier]
    constructor
    · have h : 1 + ((pm.combo : ℚ) + j) * (1/10)
          ≤ 1 + ((pm.combo : ℚ) + (j + 1 : Nat)) * (1/10) := by
        push_cast
        linarith
      exact min_le_min h le_rfl
    · exact min_le_right _ _

/-- C7 (witness): collecting at combo 10 yields multiplier 2.0, at combo
49 yields the 5.0 cap, and a streak of one collection from a fresh
session respects the cap. -/
theorem c7_combo_multiplier_witness :
    ((({ combo := 10 } : ProgressManager).collectItem "coin" 1 0).1.comboMultiplier = 2) ∧
    ((({ combo := 49 } : ProgressManager).collectItem "coin" 1 0).1.comboMultiplier = 5) ∧
    (collectRun pmInit 1).comboMultiplier ≤ 5 := by
  refine ⟨?_, ?_, (c7_combo_multiplier.2 pmInit 1 (by norm_num)).2⟩
  · have h := (c7_combo_multiplier.1 ({ combo := 10 } : ProgressManager) "coin" 1 0).2
    rw [h, (c7_combo_multiplier.1 ({ combo := 10 } : ProgressManager) "coin" 1 0).1]
    norm_num [min_def]
  · have h := (c7_combo_multiplier.1 ({ combo := 49 } : ProgressManager) "coin" 1 0).2
    rw [h, (c7_combo_multiplier.1 ({ combo := 49 } : ProgressManager) "coin" 1 0).1]
    norm_num [min_def]

/-- C8: `recordAction "death"` unconditionally resets the combo to zero
and increments the death counter, for every prior state; a subsequent
coin collection reports combo 1 and multiplier 1.0. -/
theorem c8_death_resets_combo :
    ∀ (pm : ProgressManager) (now : ℚ),
      (pm.recordAction "death").combo = 0 ∧
      (pm.recordAction "death").stats.totalDeaths = pm.stats.totalDeaths + 1 ∧
      ((pm.recordAction "death").collectItem "coin" 1 now).2.2 = 1 ∧
      ((pm.recordAction "death").collectItem "coin" 1 now).1.comboMultiplier = 1 := by
  intro pm now
  rw [recordAction_death]
  set pmD : ProgressManager :=
    { pm with combo := 0, comboMultiplier := 1,
              stats := { pm.stats with totalDeaths := pm.stats.totalDeaths + 1 } } with hD
  obtain ⟨h1, h2, h3⟩ := collectItem_combo pmD "coin" 1 now
  refine ⟨by simp [hD], by simp [hD], by rw [h2], ?_⟩
  rw [h3]
  norm_num [hD, min_def]

/-- C10: `spawnObstacle` reuse updates an obstacle's position and
`obstacleType` tag but never its `isDeadly` flag — for every slot already
in the store, `isDeadly` after the call equals `isDeadly` before it,
whatever type was requested. -/
theorem c10_isDeadly_preserved :
    ∀ (f : EntityFactory) (ty : String) (x y : ℚ) (d : SpawnData) (i : Nat),
      i < f.obstacleStore.length →
      ((f.spawnObstacle ty x y d).1.obstacleStore.getD i default).isDeadly
        = (f.obstacleStore.getD i default).isDeadly := by
  intro f ty x y d i hi
  cases h : f.obstaclePool.find? (fun i => !(f.obstacleStore.getD i default).isActive) with
  | some j =>
    simp only [EntityFactory.spawnObstacle]
    rw [h]
    by_cases hij : j = i
    · subst hij
      rw [getD_set_self _ _ _ _ hi]
      cases hv : d.velocity <;> simp [applyObstacleData, hv]
    · rw [getD_set_ne _ _ _ _ _ hij]
  | none =>
    simp only [EntityFactory.spawnObstacle]
    rw [h]
    rw [List.getD_append _ _ _ _ hi]

/-- C10 (witness): reusing the pooled obstacle of `pooledFactory` with a
requested type of `"moving_platform"` leaves its `isDeadly` flag at the
construction-time value. -/
theorem c10_isDeadly_preserved_witness :
    ((pooledFactory.spawnObstacle "moving_platform" 7 8 {}).1.obstacleStore.getD 0
        default).isDeadly
      = (pooledFactory.obstacleStore.getD 0 default).isDeadly :=
  c10_isDeadly_preserved pooledFactory "moving_platform" 7 8 {} 0 (by simp [pooledFactory])

end GeomDash
